import Mathlib

/-!
Verification of the `commit-gpt` command-line assistant (`src/commit_gpt.py`)
against its natural-language specification.

The program is single-threaded and fully synchronous, so it is embedded as
pure Lean functions:

* the interactive review loops (`generate_summary`, `generate_commit_message`,
  lines 132-207 of the source) are one shared state machine `reviewLoopAux`
  driven by a completion client abstracted as `Nat → Option String`
  (attempt index ↦ generated text, `none` = the API call raised an exception)
  and a finite list of operator input lines;
* the diff collector `get_diffs` (lines 110-129) is a pure function over an
  abstracted filesystem `fsys : String → Bool` (absolute path ↦ existence);
  Python's `os.path.exists` resolves a relative path against the process's
  current working directory, embedded in `path_exists`;
* `main`'s collaborator calls and termination status are captured by a trace
  model `mainRun` emitting `Event`s and a final `Status`
  (`Status.exn` = an uncaught Python exception ends the process).

Python's string primitives (`str.strip`, `str.split`, `str.startswith`,
`str.join`) are embedded as structurally recursive functions `pyStrip`,
`pySplitChar`, `pyStartsWith`, `pyJoin` over `List Char`, so every
definition evaluates inside the kernel.

Console printing is elided except for messages the specification singles out
(the empty-change-set diagnostic, the commit progress messages).
-/

namespace CommitGpt

/-- Embeds Python's `str.strip()`: remove leading and trailing whitespace
(the whitespace characters relevant here are space, tab, CR, LF, i.e.
`Char.isWhitespace`). -/
def pyStrip (s : String) : String :=
  ⟨((s.data.dropWhile Char.isWhitespace).reverse.dropWhile Char.isWhitespace).reverse⟩

/-- Splitting a character list at every occurrence of the separator; the
result always has at least one (possibly empty) segment, matching Python's
`str.split(sep)` with a one-character separator. -/
def splitCharAux (sep : Char) : List Char → List (List Char)
  | [] => [[]]
  | c :: cs =>
    let r := splitCharAux sep cs
    if c = sep then [] :: r
    else
      match r with
      | [] => [[c]]
      | seg :: segs => (c :: seg) :: segs

/-- Embeds Python's `s.split(sep)` for a one-character separator `sep`. -/
def pySplitChar (sep : Char) (s : String) : List String :=
  (splitCharAux sep s.data).map List.asString

/-- Embeds Python's `s.startswith(pre)`. -/
def pyStartsWith (s pre : String) : Bool :=
  pre.data.isPrefixOf s.data

/-- Embeds Python's `sep.join(parts)`. -/
def pyJoin (sep : String) : List String → String
  | [] => ""
  | [s] => s
  | s :: rest => s ++ sep ++ pyJoin sep rest

/-- Embeds `commit_gpt.py` lines 157-158: `if not user_input: user_input = 'n'`.
An empty operator input line is replaced by the token `n`. -/
def normalizeDecision (user_input : String) : String :=
  if user_input = "" then "n" else user_input

/-- Outcome of one run of the interactive review loop
(`generate_summary` / `generate_commit_message`, each a `while True:` loop).

* `accepted outcome calls`: the operator typed the accept token; `outcome` is
  the returned text and `calls` the number of completion requests issued.
* `exn calls`: the completion call raised (no `try`/`except` in the source, so
  the exception propagates out of the loop) after `calls` attempts.
* `outOfInput calls`: the operator input was exhausted (Python's `input()`
  raises `EOFError` at end of stdin) after `calls` completion requests. -/
inductive LoopResult where
  | accepted (outcome : String) (calls : Nat)
  | exn (calls : Nat)
  | outOfInput (calls : Nat)
deriving DecidableEq, Repr

/-- The accepted text of a loop run, when it terminated via the accept token. -/
def LoopResult.outcome : LoopResult → Option String
  | .accepted s _ => some s
  | _ => none

/-- Number of completion requests issued during the loop run. -/
def LoopResult.calls : LoopResult → Nat
  | .accepted _ n => n
  | .exn n => n
  | .outOfInput n => n

/-- Embeds the body of the `while True:` loop shared by `generate_summary`
(lines 134-166) and `generate_commit_message` (lines 175-206).  Each
iteration: (1) issue the completion request (attempt index `k`; the request
contents are rebuilt identically every iteration, so the client is a function
of the attempt index only); on an API exception the loop is left via `exn`;
(2) on success take `response.choices[-1].message.content.strip()`, print it,
and read one operator input line; empty input defaults to `'n'`; `'o'`
returns the stripped text; `'n'` and every other input `continue`. -/
def reviewLoopAux (results : Nat → Option String) : Nat → List String → LoopResult
  | k, [] =>
    match results k with
    | none => .exn (k + 1)
    | some _ => .outOfInput (k + 1)
  | k, user_input :: rest =>
    match results k with
    | none => .exn (k + 1)
    | some content =>
      if normalizeDecision user_input = "o" then .accepted (pyStrip content) (k + 1)
      else reviewLoopAux results (k + 1) rest

/-- The review loop started at attempt index 0. -/
def reviewLoop (results : Nat → Option String) (inputs : List String) : LoopResult :=
  reviewLoopAux results 0 inputs

/-- Embeds `summary_prompt = "\n".join(diffs)` (line 135). -/
def summaryPrompt (diffs : List String) : String :=
  pyJoin "\n" diffs

/-- Embeds `commit_prompt = "\n".join(modified_files + [summary_message])`
(line 176). -/
def commitPrompt (modified_files : List String) (summary_message : String) : String :=
  pyJoin "\n" (modified_files ++ [summary_message])

/-- Embeds `generate_summary` (lines 132-166): the review loop over a client
called with the summary prompt. -/
def generate_summary (client : String → Nat → Option String) (diffs : List String)
    (inputs : List String) : LoopResult :=
  reviewLoop (client (summaryPrompt diffs)) inputs

/-- Embeds `generate_commit_message` (lines 169-206): the identical review
loop over a client called with the commit prompt. -/
def generate_commit_message (client : String → Nat → Option String)
    (modified_files : List String) (summary_message : String)
    (inputs : List String) : LoopResult :=
  reviewLoop (client (commitPrompt modified_files summary_message)) inputs

/-- Embeds the line filter of `get_diffs` (lines 122-126):
`line.startswith(('+', '-')) and not line.startswith(('---', '+++'))`. -/
def keepLine (line : String) : Bool :=
  (pyStartsWith line "+" || pyStartsWith line "-") &&
    !(pyStartsWith line "---" || pyStartsWith line "+++")

/-- The kept lines of one diff body: `diff_output.split('\n')` filtered by
the comprehension of lines 122-126, order preserved. -/
def normalizedDiffLines (diff_output : String) : List String :=
  (pySplitChar '\n' diff_output).filter keepLine

/-- Embeds lines 119-128 of `get_diffs`: split, filter, `'\n'.join(...)`. -/
def normalizeDiff (diff_output : String) : String :=
  pyJoin "\n" (normalizedDiffLines diff_output)

/-- Python's `os.path.exists(path)` resolves a relative `path` against the
process's current working directory `cwd`; `fsys` is existence on absolute
paths.  (No symlinks or `.`/`..` components are modelled; the paths involved
are plain repository-relative file names.) -/
def path_exists (fsys : String → Bool) (cwd : String) (path : String) : Bool :=
  fsys (if pyStartsWith path "/" then path else cwd ++ "/" ++ path)

/-- Embeds `get_diffs` (lines 110-129).  For each modified file the raw diff
`repo.git.diff("HEAD", file)` is abstracted as `rawDiff file`; the branch is
chosen by `os.path.exists(file)` — note the bare repository-relative `file`
is passed, so existence is tested relative to the process cwd.  A missing
file yields the raw diff unmodified; an existing file yields the filtered
diff. -/
def get_diffs (fsys : String → Bool) (cwd : String) (rawDiff : String → String)
    (modified_files : List String) : List String :=
  modified_files.map fun file =>
    if !(path_exists fsys cwd file) then rawDiff file
    else normalizeDiff (rawDiff file)

/-- Embeds Python's `os.path.dirname` for the paths arising here: drop the
last `/`-separated component (keeping a lone root `/`). -/
def dirname (path : String) : String :=
  let head := pyJoin "/" (pySplitChar '/' path).dropLast
  if head = "" && pyStartsWith path "/" then "/" else head

/-- Embeds `os.path.realpath` for a symlink-free filesystem: a relative path
is resolved against the process's current working directory. -/
def realpath (cwd : String) (path : String) : String :=
  if pyStartsWith path "/" then path else cwd ++ "/" ++ path

/-- Embeds `get_repo_path_from_argument` (lines 58-70), matching on
`len(sys.argv)`.  With two argv entries the explicit path is returned; with
one (zero user arguments) the source computes
`os.path.dirname(os.path.realpath('__file__'))` — note `'__file__'` is the
literal underscore-delimited STRING, not the module's `__file__` variable,
so `realpath` resolves the cwd-relative name `__file__`; otherwise a usage
`ValueError` is raised. -/
def get_repo_path_from_argument (argv : List String) (cwd : String) :
    Except String String :=
  match argv with
  | [_] => .ok (dirname (realpath cwd "__file__"))
  | [_, path] => .ok path
  | _ => .error "Utilisation: python commit_gpt.py [path]"

/-- The distinct diagnostic printed by `stop_if_no_modified_file`
(lines 95-107) before it raises `ValueError` (apostrophes and line break of
the French text elided). -/
def stopMessage : String :=
  "Aucun fichier modifie. Veuillez utiliser git add pour ajouter des fichiers."

/-- An observable collaborator call or console message of a run. -/
inductive Event where
  | message (text : String)
  | diffCall (file : String)
  | completionCall (attempt : Nat)
  | commitCall (commit_message : String)
  | pushCall (remote : String)
deriving DecidableEq, Repr

/-- How the process ends: `ok` = exit 0; `exn e` = an uncaught Python
exception of kind `e` terminates the process with a traceback. -/
inductive Status where
  | ok
  | exn (error : String)
deriving DecidableEq, Repr

/-- Embeds `commit_and_push` (lines 209-226): print progress, then
`repo.git.commit(...)`, then `repo.remote(name='origin').push()`, then the
success message.  `commitOk` / `pushOk` say whether the corresponding git
call succeeds; a failing call raises and everything after it is skipped. -/
def commit_and_push (commit_message : String) (commitOk pushOk : Bool) :
    List Event × Status :=
  let started := [Event.message "Commit en cours...",
                  Event.commitCall commit_message]
  if !commitOk then (started, .exn "GitCommandError")
  else if !pushOk then (started ++ [Event.pushCall "origin"], .exn "GitCommandError")
  else (started ++ [Event.pushCall "origin", Event.message "Commit termine."], .ok)

/-- Embeds `main` (lines 229-282) from `get_modified_files` onward:
`stop_if_no_modified_file` (print the diagnostic, raise `ValueError` when the
modified set is empty — the exception is not caught anywhere, so the process
ends with a traceback), then `get_diffs` (one `repo.git.diff` call per file),
then `generate_summary`, then `generate_commit_message`, then
`commit_and_push`.  `sClient` / `cClient` are the completion outcomes per
attempt for the two stages, `sInputs` / `cInputs` the operator input lines
consumed by each loop. -/
def mainRun (modified_files : List String) (fsys : String → Bool) (cwd : String)
    (rawDiff : String → String) (sClient cClient : Nat → Option String)
    (sInputs cInputs : List String) (commitOk pushOk : Bool) :
    List Event × Status :=
  if modified_files.isEmpty then
    ([Event.message stopMessage], .exn "ValueError")
  else
    let _diffs := get_diffs fsys cwd rawDiff modified_files
    match reviewLoop sClient sInputs with
    | .exn ns =>
      (modified_files.map Event.diffCall ++ (List.range ns).map Event.completionCall,
       .exn "CompletionError")
    | .outOfInput ns =>
      (modified_files.map Event.diffCall ++ (List.range ns).map Event.completionCall,
       .exn "EOFError")
    | .accepted _ ns =>
      match reviewLoop cClient cInputs with
      | .exn nc =>
        (modified_files.map Event.diffCall ++ (List.range ns).map Event.completionCall
          ++ (List.range nc).map Event.completionCall, .exn "CompletionError")
      | .outOfInput nc =>
        (modified_files.map Event.diffCall ++ (List.range ns).map Event.completionCall
          ++ (List.range nc).map Event.completionCall, .exn "EOFError")
      | .accepted commit_message nc =>
        (modified_files.map Event.diffCall ++ (List.range ns).map Event.completionCall
          ++ (List.range nc).map Event.completionCall
          ++ (commit_and_push commit_message commitOk pushOk).1,
         (commit_and_push commit_message commitOk pushOk).2)

end CommitGpt

namespace CommitGpt

/-! ### Helper lemmas -/

/-- The empty-input default does not change whether the decision is the
accept token: `normalizeDecision u = "o"` exactly when `u = "o"`. -/
theorem normalizeDecision_eq_accept (u : String) :
    normalizeDecision u = "o" ↔ u = "o" := by
  unfold normalizeDecision
  by_cases hu : u = ""
  · subst hu; simp
  · simp [hu]

/-- One-step unfolding of the loop when an operator input line is available. -/
theorem reviewLoopAux_cons (results : Nat → Option String) (k : Nat)
    (user_input : String) (rest : List String) :
    reviewLoopAux results k (user_input :: rest) =
      match results k with
      | none => .exn (k + 1)
      | some content =>
        if normalizeDecision user_input = "o" then
          LoopResult.accepted (pyStrip content) (k + 1)
        else reviewLoopAux results (k + 1) rest := rfl

/-- Whenever the review loop terminates in its accept state, the returned
text is the `strip` of the completion result of the last attempt issued. -/
theorem reviewLoopAux_accepted (results : Nat → Option String) :
    ∀ (inputs : List String) (k : Nat) (s : String) (n : Nat),
      reviewLoopAux results k inputs = .accepted s n →
      ∃ content, results (n - 1) = some content ∧ s = pyStrip content ∧ k < n := by
  intro inputs
  induction inputs with
  | nil =>
    intro k s n h
    unfold reviewLoopAux at h
    cases hr : results k <;> rw [hr] at h <;> simp at h
  | cons head tail ih =>
    intro k s n h
    unfold reviewLoopAux at h
    cases hr : results k with
    | none => rw [hr] at h; simp at h
    | some content =>
      rw [hr] at h
      dsimp only at h
      by_cases hd : normalizeDecision head = "o"
      · rw [if_pos hd] at h
        obtain ⟨hs, hn⟩ := LoopResult.accepted.inj h
        refine ⟨content, ?_, hs.symm, ?_⟩
        · rw [← hn]; simpa using hr
        · omega
      · rw [if_neg hd] at h
        obtain ⟨content2, h1, h2, h3⟩ := ih (k + 1) s n h
        exact ⟨content2, h1, h2, by omega⟩

/-- Positional description of the diff collector: the diff stored for the
`i`-th modified file is the raw diff when `os.path.exists` is false there,
and the filtered diff when it is true. -/
theorem get_diffs_getD (fsys : String → Bool) (cwd : String)
    (rawDiff : String → String) :
    ∀ (files : List String) (i : Nat), i < files.length →
      (get_diffs fsys cwd rawDiff files).getD i ""
        = (if path_exists fsys cwd (files.getD i "")
            then normalizeDiff (rawDiff (files.getD i ""))
            else rawDiff (files.getD i "")) := by
  intro files
  induction files with
  | nil => intro i hi; simp at hi
  | cons f fs ih =>
    intro i hi
    cases i with
    | zero =>
      cases hpe : path_exists fsys cwd f <;> simp [get_diffs, hpe]
    | succ j =>
      have hj : j < fs.length := by simpa using hi
      simpa [get_diffs] using ih j hj

end CommitGpt

namespace CommitGpt

/-! ### Claim C1 — recognized decision tokens -/

/-- Claim C1, as stated, is false: with generated text `"G"`, operator input
`"c"` followed by free text `"X"` does NOT yield ReviewOutcome `"X"`.  The
code treats both `"c"` and `"X"` as regenerate tokens, issues a third
completion request and then runs out of operator input (an `EOFError` crash),
never accepting anything. -/
theorem c1_counterexample :
    (reviewLoop (fun _ => some "G") ["c", "X"]).outcome ≠ some "X" ∧
    reviewLoop (fun _ => some "G") ["c", "X"] = .outOfInput 3 := by
  exact ⟨by decide, rfl⟩

/-- Claim C1 (amended): in the AWAITING_DECISION state the only recognized
decision token is `o` (case-sensitive): `o` accepts the stripped generated
text as ReviewOutcome and terminates, while every other input — `n`, the
empty string (which defaults to `n`), and in particular `y`, `r` and `c` —
discards the output and regenerates; there is no token that prompts for
free replacement text. -/
theorem c1_decision_tokens (results : Nat → Option String) (k : Nat)
    (user_input : String) (rest : List String) (content : String)
    (h : results k = some content) :
    (user_input = "o" →
      reviewLoopAux results k (user_input :: rest)
        = .accepted (pyStrip content) (k + 1)) ∧
    (user_input ≠ "o" →
      reviewLoopAux results k (user_input :: rest)
        = reviewLoopAux results (k + 1) rest) := by
  constructor
  · intro he
    rw [reviewLoopAux_cons, h]
    dsimp only
    rw [if_pos ((normalizeDecision_eq_accept user_input).mpr he)]
  · intro hne
    rw [reviewLoopAux_cons, h]
    dsimp only
    rw [if_neg (fun hc => hne ((normalizeDecision_eq_accept user_input).mp hc))]

/-- Concrete instance of `c1_decision_tokens`: with generated text `"G"` the
input `"c"` is not an accept token, so the loop regenerates. -/
theorem c1_decision_tokens_witness :
    ("c" = "o" →
      reviewLoopAux (fun _ => some "G") 0 ["c", "X"] = .accepted (pyStrip "G") 1) ∧
    ("c" ≠ "o" →
      reviewLoopAux (fun _ => some "G") 0 ["c", "X"]
        = reviewLoopAux (fun _ => some "G") 1 ["X"]) :=
  c1_decision_tokens (fun _ => some "G") 0 "c" ["X"] "G" rfl

/-! ### Claim C2 — behaviour on completion failure -/

/-- Claim C2, as stated, is false: with a completion client that always
fails, the loop does not present the error and fall back to operator
override; the exception simply propagates after the single attempt, and the
operator-supplied text `"manual text"` never becomes a ReviewOutcome. -/
theorem c2_counterexample :
    reviewLoop (fun _ => none) ["manual text"] = .exn 1 ∧
    (reviewLoop (fun _ => none) ["manual text"]).outcome ≠ some "manual text" := by
  exact ⟨rfl, by decide⟩

/-- Claim C2 (amended): if the first completion call fails, the review loop
makes exactly one completion attempt (no retry) and terminates immediately by
letting the exception propagate — there is no `try`/`except` in the source,
so no error is presented, the operator is never asked for replacement text,
and no ReviewOutcome is produced; the whole run crashes. -/
theorem c2_failure_propagates (results : Nat → Option String)
    (inputs : List String) (h : results 0 = none) :
    reviewLoop results inputs = .exn 1 := by
  cases inputs <;> · unfold reviewLoop reviewLoopAux; rw [h]

/-- Concrete instance of `c2_failure_propagates`: the always-failing client
ends the loop with a propagated exception after one attempt. -/
theorem c2_failure_propagates_witness :
    reviewLoop (fun _ => none) ["replacement text"] = .exn 1 :=
  c2_failure_propagates (fun _ => none) ["replacement text"] rfl

/-! ### Claim C3 — non-emptiness of the accepted outcome -/

/-- Claim C3, as stated, is false: when the completion result is the
all-whitespace text `"   "` and the operator accepts it with `o`, the review
loop terminates in its accept state with the EMPTY ReviewOutcome `""`. -/
theorem c3_counterexample :
    reviewLoop (fun _ => some "   ") ["o"] = .accepted "" 1 := rfl

/-- Claim C3 (amended): whenever the review loop terminates in its accept
state, the returned ReviewOutcome is `content.strip()` for the completion
text `content` of the last attempt; non-emptiness is NOT enforced — the
outcome is empty exactly when that completion text is all whitespace. -/
theorem c3_accepted_outcome_is_stripped (results : Nat → Option String)
    (inputs : List String) (s : String) (n : Nat)
    (h : reviewLoop results inputs = .accepted s n) :
    ∃ content, results (n - 1) = some content ∧ s = pyStrip content :=
  match reviewLoopAux_accepted results inputs 0 s n h with
  | ⟨content, h1, h2, _⟩ => ⟨content, h1, h2⟩

/-- Concrete instance of `c3_accepted_outcome_is_stripped`: accepting the
generated text `" hi "` returns its stripped form `"hi"`. -/
theorem c3_accepted_outcome_is_stripped_witness :
    ∃ content, (fun _ => some " hi ") (1 - 1) = some content ∧ "hi" = pyStrip content :=
  c3_accepted_outcome_is_stripped (fun _ => some " hi ") ["o"] "hi" 1 rfl

/-! ### Claim C4 — fixed client with inputs r, r, y -/

/-- Claim C4, as stated, is false: with a client always returning `"T"` and
operator inputs `["r", "r", "y"]`, the loop does not stop at 3 calls with
outcome `"T"`; all three tokens (including `"y"`) are treated as regenerate,
a fourth completion request is issued, and the loop then aborts on exhausted
operator input instead of returning `"T"`. -/
theorem c4_counterexample :
    reviewLoop (fun _ => some "T") ["r", "r", "y"] = .outOfInput 4 ∧
    (reviewLoop (fun _ => some "T") ["r", "r", "y"]).outcome ≠ some "T" ∧
    (reviewLoop (fun _ => some "T") ["r", "r", "y"]).calls ≠ 3 := by
  exact ⟨rfl, by decide, by decide⟩

/-- Claim C4 (amended): with a client always returning `"T"`, the accepting
input sequence is `["n", "n", "o"]` in this program's vocabulary — the loop
then invokes the completion client exactly 3 times and returns `"T"` as its
ReviewOutcome. -/
theorem c4_three_calls_then_accept :
    reviewLoop (fun _ => some "T") ["n", "n", "o"] = .accepted "T" 3 := rfl

end CommitGpt

namespace CommitGpt

/-! ### Claim C5 — normalized diff body for existing files -/

/-- Claim C5 (confirmed): for the `i`-th modified file, when it still exists
on disk, the diff collector's output is the join of exactly those lines of
the raw diff that start with `+` or `-` but not with `---` or `+++`; the
kept lines are a sublist of the raw diff's lines (original relative order),
and an arbitrary `line` belongs to them exactly when it is a raw-diff line
satisfying that start-of-line condition — so no other line appears. -/
theorem c5_normalized_diff_filters_lines (fsys : String → Bool) (cwd : String)
    (rawDiff : String → String) (modified_files : List String) (i : Nat)
    (line : String) (hi : i < modified_files.length)
    (hex : path_exists fsys cwd (modified_files.getD i "") = true) :
    (get_diffs fsys cwd rawDiff modified_files).getD i ""
        = pyJoin "\n" (normalizedDiffLines (rawDiff (modified_files.getD i ""))) ∧
    (normalizedDiffLines (rawDiff (modified_files.getD i ""))).Sublist
        (pySplitChar '\n' (rawDiff (modified_files.getD i ""))) ∧
    (line ∈ normalizedDiffLines (rawDiff (modified_files.getD i ""))
      ↔ line ∈ pySplitChar '\n' (rawDiff (modified_files.getD i ""))
        ∧ (pyStartsWith line "+" = true ∨ pyStartsWith line "-" = true)
        ∧ pyStartsWith line "---" = false
        ∧ pyStartsWith line "+++" = false) := by
  refine ⟨?_, ?_, ?_⟩
  · rw [get_diffs_getD fsys cwd rawDiff modified_files i hi, if_pos hex]
    rfl
  · exact List.filter_sublist _
  · simp only [normalizedDiffLines, List.mem_filter, keepLine]
    constructor
    · rintro ⟨hmem, hkeep⟩
      refine ⟨hmem, ?_⟩
      cases h1 : pyStartsWith line "+" <;> cases h2 : pyStartsWith line "-" <;>
        cases h3 : pyStartsWith line "---" <;> cases h4 : pyStartsWith line "+++" <;>
        simp_all
    · rintro ⟨hmem, hpm, h3, h4⟩
      refine ⟨hmem, ?_⟩
      cases hpm with
      | inl h1 => simp [h1, h3, h4]
      | inr h2 => simp [h2, h3, h4]

/-- Concrete instance of `c5_normalized_diff_filters_lines` on the mixed diff
body with header lines, an added line, a removed line and a context line. -/
theorem c5_normalized_diff_filters_lines_witness :
    0 < (["a.txt"] : List String).length ∧
    path_exists (fun p => p == "/repo/a.txt") "/repo" ((["a.txt"] : List String).getD 0 "") = true ∧
    ((get_diffs (fun p => p == "/repo/a.txt") "/repo"
          (fun _ => "--- a\n+++ b\n+hello\n-old\ncontext") ["a.txt"]).getD 0 ""
        = pyJoin "\n" (normalizedDiffLines
            ((fun _ => "--- a\n+++ b\n+hello\n-old\ncontext") ((["a.txt"] : List String).getD 0 ""))) ∧
      (normalizedDiffLines ((fun _ => "--- a\n+++ b\n+hello\n-old\ncontext") ((["a.txt"] : List String).getD 0 ""))).Sublist
        (pySplitChar '\n' ((fun _ => "--- a\n+++ b\n+hello\n-old\ncontext") ((["a.txt"] : List String).getD 0 ""))) ∧
      ("+hello" ∈ normalizedDiffLines ((fun _ => "--- a\n+++ b\n+hello\n-old\ncontext") ((["a.txt"] : List String).getD 0 ""))
        ↔ "+hello" ∈ pySplitChar '\n' ((fun _ => "--- a\n+++ b\n+hello\n-old\ncontext") ((["a.txt"] : List String).getD 0 ""))
          ∧ (pyStartsWith "+hello" "+" = true ∨ pyStartsWith "+hello" "-" = true)
          ∧ pyStartsWith "+hello" "---" = false
          ∧ pyStartsWith "+hello" "+++" = false)) :=
  ⟨by decide, rfl,
    c5_normalized_diff_filters_lines (fun p => p == "/repo/a.txt") "/repo"
      (fun _ => "--- a\n+++ b\n+hello\n-old\ncontext") ["a.txt"] 0 "+hello"
      (by decide) rfl⟩

/-! ### Claim C9 — existence test is cwd-relative -/

/-- Claim C9 (confirmed): the branch taken by `get_diffs` for the `i`-th file
is decided by `os.path.exists` on the bare repository-relative path — the
raw diff is returned exactly when that test is false — and the test resolves
the path against the process's current working directory (the repository
root is not even an input of the embedded existence test).  Consequently the
same repository state produces different collector outputs from different
working directories, witnessed by the closing concrete conjunct. -/
theorem c9_branch_decided_by_cwd_exists (fsys : String → Bool) (cwd : String)
    (rawDiff : String → String) (modified_files : List String) (i : Nat)
    (hi : i < modified_files.length) :
    ((get_diffs fsys cwd rawDiff modified_files).getD i ""
        = if path_exists fsys cwd (modified_files.getD i "")
            then normalizeDiff (rawDiff (modified_files.getD i ""))
            else rawDiff (modified_files.getD i "")) ∧
    path_exists fsys cwd (modified_files.getD i "")
        = fsys (if pyStartsWith (modified_files.getD i "") "/"
                then modified_files.getD i ""
                else cwd ++ "/" ++ modified_files.getD i "") ∧
    get_diffs (fun p => p == "/repo/a.txt") "/repo" (fun _ => "ctx\n+x") ["a.txt"]
      ≠ get_diffs (fun p => p == "/repo/a.txt") "/tmp" (fun _ => "ctx\n+x") ["a.txt"] := by
  refine ⟨get_diffs_getD fsys cwd rawDiff modified_files i hi, rfl, ?_⟩
  decide

/-- Concrete instance of `c9_branch_decided_by_cwd_exists` at index 0 of a
one-file modified set. -/
theorem c9_branch_decided_by_cwd_exists_witness :
    0 < (["b.txt"] : List String).length ∧
    (((get_diffs (fun _ => true) "/repo" (fun _ => "ctx\n+x") ["b.txt"]).getD 0 ""
        = if path_exists (fun _ => true) "/repo" ((["b.txt"] : List String).getD 0 "")
            then normalizeDiff ((fun _ => "ctx\n+x") ((["b.txt"] : List String).getD 0 ""))
            else (fun _ => "ctx\n+x") ((["b.txt"] : List String).getD 0 "")) ∧
      path_exists (fun _ => true) "/repo" ((["b.txt"] : List String).getD 0 "")
        = (fun _ => true) (if pyStartsWith ((["b.txt"] : List String).getD 0 "") "/"
                then (["b.txt"] : List String).getD 0 ""
                else "/repo" ++ "/" ++ (["b.txt"] : List String).getD 0 "") ∧
      get_diffs (fun p => p == "/repo/a.txt") "/repo" (fun _ => "ctx\n+x") ["a.txt"]
        ≠ get_diffs (fun p => p == "/repo/a.txt") "/tmp" (fun _ => "ctx\n+x") ["a.txt"]) :=
  ⟨by decide,
    c9_branch_decided_by_cwd_exists (fun _ => true) "/repo" (fun _ => "ctx\n+x")
      ["b.txt"] 0 (by decide)⟩

/-! ### Claim C6 — empty modified-file set -/

/-- Claim C6, as stated, is false on its "normal clean stopping condition
(not a crash)" part: with an empty modified-file set the run does print the
distinct diagnostic and touches no collaborator, but it then terminates by
raising an uncaught `ValueError` — an abnormal exit with a traceback, not a
clean stop. -/
theorem c6_counterexample :
    (mainRun [] (fun _ => false) "/repo" (fun _ => "") (fun _ => none)
        (fun _ => none) [] [] true true).2 ≠ Status.ok ∧
    mainRun [] (fun _ => false) "/repo" (fun _ => "") (fun _ => none)
        (fun _ => none) [] [] true true
      = ([Event.message stopMessage], Status.exn "ValueError") := by
  exact ⟨by decide, rfl⟩

/-- Claim C6 (amended): when the enumerated modified-file set is empty, the
run stops before any call to diff collection, the completion service, commit
or push, and its only observable output is the distinct user-facing
diagnostic — but the stop happens by raising an uncaught `ValueError`
(process crash), not as a clean exit. -/
theorem c6_empty_set_stops_with_exception (fsys : String → Bool) (cwd : String)
    (rawDiff : String → String) (sClient cClient : Nat → Option String)
    (sInputs cInputs : List String) (commitOk pushOk : Bool) :
    mainRun [] fsys cwd rawDiff sClient cClient sInputs cInputs commitOk pushOk
      = ([Event.message stopMessage], Status.exn "ValueError") := rfl

/-! ### Claim C7 — repository-root argument handling -/

/-- Claim C7's zero-argument half contradicts the source: the code computes
`os.path.dirname(os.path.realpath('__file__'))` with the LITERAL string
`'__file__'`, which resolves against the current working directory, so the
default repository root is the cwd — the directory containing the program is
not consulted at all (it is not even an input of the embedded function).
The evaluations below show the default tracking two different cwds for the
same program, the one-argument case, and the usage error for more than one
argument (raised before any repository or completion collaborator exists). -/
theorem c7_zero_arg_default_is_cwd :
    get_repo_path_from_argument ["commit_gpt.py"] "/home/user"
      = Except.ok "/home/user" ∧
    get_repo_path_from_argument ["commit_gpt.py"] "/opt/elsewhere"
      = Except.ok "/opt/elsewhere" ∧
    get_repo_path_from_argument ["commit_gpt.py", "/explicit/repo"] "/home/user"
      = Except.ok "/explicit/repo" ∧
    get_repo_path_from_argument ["commit_gpt.py", "a", "b"] "/home/user"
      = Except.error "Utilisation: python commit_gpt.py [path]" :=
  ⟨rfl, rfl, rfl, rfl⟩

end CommitGpt

namespace CommitGpt

/-! ### Claim C8 — commit after both outcomes, one push to origin -/

/-- Claim C8 (confirmed): whenever a run terminates successfully, both the
summary and the commit-message review loops reached their accept state, and
the event trace ends with the commit carrying the accepted commit message
verbatim, followed by exactly one push to the remote `origin`; no commit and
no push occur anywhere earlier in the trace (in particular not before the two
ReviewOutcomes were finalized). -/
theorem c8_commit_then_single_push (modified_files : List String)
    (fsys : String → Bool) (cwd : String) (rawDiff : String → String)
    (sClient cClient : Nat → Option String) (sInputs cInputs : List String)
    (commitOk pushOk : Bool)
    (h : (mainRun modified_files fsys cwd rawDiff sClient cClient sInputs cInputs
            commitOk pushOk).2 = Status.ok) :
    ∃ (s cm : String) (ns nc : Nat) (pre : List Event),
      reviewLoop sClient sInputs = .accepted s ns ∧
      reviewLoop cClient cInputs = .accepted cm nc ∧
      (mainRun modified_files fsys cwd rawDiff sClient cClient sInputs cInputs
          commitOk pushOk).1
        = pre ++ [Event.commitCall cm, Event.pushCall "origin",
                  Event.message "Commit termine."] ∧
      (∀ m, Event.commitCall m ∉ pre) ∧
      (∀ r, Event.pushCall r ∉ pre) := by
  unfold mainRun at h ⊢
  by_cases hemp : modified_files.isEmpty
  · rw [if_pos hemp] at h
    simp at h
  · rw [if_neg hemp] at h ⊢
    cases hs : reviewLoop sClient sInputs with
    | exn ns => rw [hs] at h; simp at h
    | outOfInput ns => rw [hs] at h; simp at h
    | accepted s ns =>
      rw [hs] at h
      dsimp only at h ⊢
      cases hc : reviewLoop cClient cInputs with
      | exn nc => rw [hc] at h; simp at h
      | outOfInput nc => rw [hc] at h; simp at h
      | accepted cm nc =>
        rw [hc] at h
        dsimp only at h ⊢
        cases commitOk with
        | false => simp [commit_and_push] at h
        | true =>
          cases pushOk with
          | false => simp [commit_and_push] at h
          | true =>
            refine ⟨s, cm, ns, nc,
              modified_files.map Event.diffCall
                ++ (List.range ns).map Event.completionCall
                ++ (List.range nc).map Event.completionCall
                ++ [Event.message "Commit en cours..."], rfl, rfl, ?_, ?_, ?_⟩
            · simp [commit_and_push]
            · intro m
              simp
            · intro r
              simp

/-- Concrete instance of `c8_commit_then_single_push`: the end-to-end
scenario with two modified files, both stages accepted on first try, and a
successful commit and push. -/
theorem c8_commit_then_single_push_witness :
    (mainRun ["a.txt", "b.txt"] (fun _ => true) "/repo" (fun _ => "+hello")
        (fun _ => some "Adds hello, removes old")
        (fun _ => some "feat: update a.txt, b.txt") ["o"] ["o"] true true).2
      = Status.ok ∧
    (∃ (s cm : String) (ns nc : Nat) (pre : List Event),
      reviewLoop (fun _ => some "Adds hello, removes old") ["o"] = .accepted s ns ∧
      reviewLoop (fun _ => some "feat: update a.txt, b.txt") ["o"] = .accepted cm nc ∧
      (mainRun ["a.txt", "b.txt"] (fun _ => true) "/repo" (fun _ => "+hello")
          (fun _ => some "Adds hello, removes old")
          (fun _ => some "feat: update a.txt, b.txt") ["o"] ["o"] true true).1
        = pre ++ [Event.commitCall cm, Event.pushCall "origin",
                  Event.message "Commit termine."] ∧
      (∀ m, Event.commitCall m ∉ pre) ∧
      (∀ r, Event.pushCall r ∉ pre)) :=
  ⟨rfl,
    c8_commit_then_single_push ["a.txt", "b.txt"] (fun _ => true) "/repo"
      (fun _ => "+hello") (fun _ => some "Adds hello, removes old")
      (fun _ => some "feat: update a.txt, b.txt") ["o"] ["o"] true true rfl⟩

/-! ### Claim C10 — no push when the commit fails -/

/-- Claim C10 (confirmed): in `commit_and_push`, when the commit call raises,
the run ends with the propagated git error and the push to `origin` (or to
any other remote) is never invoked, leaving the remote untouched. -/
theorem c10_no_push_on_commit_failure (commit_message : String) (pushOk : Bool) :
    (commit_and_push commit_message false pushOk).2 = Status.exn "GitCommandError" ∧
    ∀ remote, Event.pushCall remote ∉ (commit_and_push commit_message false pushOk).1 := by
  constructor
  · rfl
  · intro remote
    simp [commit_and_push]

end CommitGpt
